import Mathlib

/-
Verification of the request-lifecycle engine of `src/server.js`
(AegisJSProject/http-server): route resolution, the
preprocessor/handler/postprocessor pipeline, the exactly-once settlement
guard, and the cancellation-aware response sender `_send`.

The JavaScript is shallowly embedded: promises and async control flow are
flattened into explicit state passing, the per-request abort signal is
sampled at the code's own check points (entry of `_send`, after headers are
written, and before each read of the streaming loop), and the transport
(`ServerResponse`) is a record of the write events the code performs on it.
-/

set_option linter.unusedVariables false

/-- Error values flowing through the pipeline.  `httpError` models an
`HTTPError` instance (message, HTTP status, optional cause message);
`typeError` a `TypeError`; `errorMsg` a plain `Error`; `strReason` a
non-`Error` abort reason value (such as the string passed to
`controller.abort('Socket closed')`); `aggregate` an `AggregateError`
over its list of errors, in order. -/
inductive Err : Type where
  | httpError (message : String) (status : Nat) (cause : Option String)
  | typeError (message : String)
  | errorMsg (message : String)
  | strReason (s : String)
  | aggregate (errors : List Err)

/-- The `.message` of the `Error` derived from a reason value, as computed at
`src/server.js:63` / `src/server.js:100`:
`reason instanceof Error ? reason : new Error(reason)` — wrapping a
non-`Error` value `s` yields an `Error` whose message is `s`; an
`AggregateError` built without a message argument has message `""`. -/
def Err.message : Err → String
  | .httpError m _ _ => m
  | .typeError m => m
  | .errorMsg m => m
  | .strReason s => s
  | .aggregate _ => ""

/-- One chunk written to the transport: raw bytes from a body stream, or the
`JSON.stringify` of an `HTTPError` (message, status) — the serialized form is
kept abstract since `HTTPError.js` is an external collaborator. -/
inductive Chunk : Type where
  | bytes (data : List Nat)
  | errJSON (message : String) (status : Nat)

/-- A response body: absent, a string (as handed to the `Response`
constructor), or a readable stream of chunks. -/
inductive Body : Type where
  | null
  | str (s : String)
  | stream (chunks : List Chunk)

/-- Code points of a string, modelling the byte stream a string body becomes
when wrapped by the `Response` constructor (claims only exercise ASCII). -/
def strBytes (s : String) : List Nat :=
  s.data.map Char.toNat

/-- The `Response` constructor turns a string body into a readable stream of
its encoded bytes; `null` stays an absent body, a stream passes through. -/
def Body.toStreamBody : Body → Body
  | .str s => .stream [.bytes (strBytes s)]
  | b => b

/-- A transform stream (`TransformStream`, `CompressionStream`, or any
`{readable, writable}` pair): modelled by its action on the chunk sequence
that is piped through it. -/
structure TransformStream where
  transform : List Chunk → List Chunk

/-- The `TypeError` thrown when the receiver of a `pipeThrough` call is not
a readable stream — for a body-less `Response`, `resp.body` is `null`, and
`null.pipeThrough` throws.  The platform's message text is abbreviated to
one fixed value. -/
def pipeNullError : Err :=
  .typeError "resp.body.pipeThrough is not a function"

/-- `stream.pipeThrough(pipe, { signal })` (`src/server.js:79`): on a
readable-stream receiver, the transformed stream, paired with the abort
source the call subscribed this pipe to — the request's cancellation token
(an opaque identity).  On a `null` (or other non-stream) receiver the call
throws a `TypeError`, rejecting the whole body computation. -/
def pipeThrough (b : Body) (t : TransformStream) (tok : Nat) :
    Except Err (Body × Nat) :=
  match b with
  | .stream cs => .ok (.stream (t.transform cs), tok)
  | _ => .error pipeNullError

/-- A fetch-API `Response`.  Header names are kept in the lowercase form the
`Headers` class normalizes them to. -/
structure Resp where
  status : Nat
  statusText : String
  headers : List (String × String)
  body : Body

/-- ASCII lowercasing of a header name, as the `Headers` class performs. -/
def lowerStr (s : String) : String :=
  ⟨s.data.map Char.toLower⟩

/-- `headers.has(name)`: the `Headers` class matches names case-insensitively
against its lowercase-stored keys. -/
def headersHas (hs : List (String × String)) (name : String) : Bool :=
  hs.any (fun p => p.1 == lowerStr name)

/-- `headers.getSetCookie()` (`src/server.js:89`): the values of every
`set-cookie` entry, in order. -/
def getSetCookie (hs : List (String × String)) : List String :=
  (hs.filter (fun p => p.1 == "set-cookie")).map Prod.snd

/-- Header-list normalization performed by the `Headers` constructor:
names are lowercased. -/
def normHeaderList (hs : List (String × String)) : List (String × String) :=
  hs.map (fun p => (lowerStr p.1, p.2))

/-- `new Response(body, { status, statusText, headers })`
(`src/server.js:149`). -/
def mkResponse (body : Body) (status : Nat) (statusText : String)
    (headers : List (String × String)) : Resp :=
  ⟨status, statusText, normHeaderList headers, body.toStreamBody⟩

/-- `Response.redirect(url)` (`src/server.js:275`): a 302 response whose only
header is `location` and whose body is null. -/
def responseRedirect (u : String) : Resp :=
  ⟨302, "", [("location", u)], Body.null⟩

/-- `_isImmutableResponse` (`src/server.js:10`):
`resp.status > 299 && resp.status < 309 && resp.headers.has('Location')`. -/
def _isImmutableResponse (resp : Resp) : Bool :=
  decide (299 < resp.status) && decide (resp.status < 309)
    && headersHas resp.headers "Location"

/-- The value a postprocessor's settled promise holds: a transform stream, or
some other (non-stream) value. -/
inductive PPValue : Type where
  | transform (t : TransformStream)
  | nonStream

/-- One entry of the `Promise.allSettled` array over the postprocessors
(`src/server.js:74`): fulfilled with a value, or rejected. -/
inductive PPResult : Type where
  | fulfilled (value : PPValue)
  | rejected (reason : Err)

/-- `result.value` of an `allSettled` entry: a rejected entry has no `value`
(it is `undefined`, modelled as `none`). -/
def PPResult.value : PPResult → Option PPValue
  | .fulfilled v => some v
  | .rejected _ => none

/-- `_isTransformStream` (`src/server.js:12`), applied to `result.value`:
only a defined value that is a transform stream passes; `undefined` (from a
rejected entry) and non-stream values fail. -/
def _isTransformStream : Option PPValue → Bool
  | some (.transform _) => true
  | _ => false

/-- One step of the
`reduce((stream, pipe) => stream.pipeThrough(pipe, { signal }), resp.body)`
chain (`src/server.js:79`), accumulating the chained body together with the
abort source recorded for each pipe; every element reaching the reduce has
passed the `_isTransformStream` filter, so the non-transform cases are
unreachable there and leave the accumulator unchanged.  A step whose
receiver is not a stream propagates the `TypeError`. -/
def pipeValue (tok : Nat) (acc : Body × List Nat) (v : Option PPValue) :
    Except Err (Body × List Nat) :=
  match v with
  | some (.transform t) =>
      match pipeThrough acc.1 t tok with
      | .ok p => .ok (p.1, acc.2 ++ [p.2])
      | .error e => .error e
  | _ => .ok acc

/-- The postprocessor chaining of `_send` (`src/server.js:74`–`80`): filter
the settled results to those whose value is a transform stream, map to the
values, and reduce `pipeThrough` over them starting from the response body;
a throw inside the reduce (null body with a kept transform) rejects the
whole computation and so the send. -/
def chainTransforms (tok : Nat) (b : Body) (results : List PPResult) :
    Except Err (Body × List Nat) :=
  ((results.filter (fun r => _isTransformStream r.value)).map
      (fun r => r.value)).foldlM (pipeValue tok) (b, [])

/-- The body `_send` streams for a `Response` (`src/server.js:72`–`80`): an
immutable (redirect-class) response keeps its original body, bypassing the
postprocessors; otherwise the kept transforms are chained onto it, which
throws when the body is `null` and at least one transform is kept. -/
def respBody (resp : Resp) (results : List PPResult) (tok : Nat) :
    Except Err Body :=
  if _isImmutableResponse resp then .ok resp.body
  else (chainTransforms tok resp.body results).map Prod.fst

/-- Specification-side formulation (for comparison with `chainTransforms`):
the postprocessor results that are valid transform streams, in registration
(fan-out) order — failures and non-stream results discarded. -/
def specKeptTransforms (results : List PPResult) : List TransformStream :=
  results.filterMap fun r =>
    match r with
    | .fulfilled (.transform t) => some t
    | _ => none

/-- Specification-side formulation: chain the kept transforms onto a body in
order, each pipe receiving the cancellation token as its abort source. -/
def specChainInOrder (tok : Nat) (b : Body) (ts : List TransformStream) :
    Except Err Body :=
  ts.foldlM (fun s t => (pipeThrough s t tok).map Prod.fst) b

/-- The transport (`node:http` `ServerResponse`) as a record of what was done
to it: accumulated headers, the statuses passed to `writeHead` in call order
(`headSeq`), the body chunks written, and the `headersSent` / `writable` /
ended flags. -/
structure ServerResponse where
  headersSent : Bool
  writable : Bool
  headers : List (String × String)
  headSeq : List Nat
  writes : List Chunk
  ended : Bool
  destroyedWith : Option Err

/-- A fresh `ServerResponse`: nothing sent, writable, not destroyed. -/
def initialServerResponse : ServerResponse :=
  ⟨false, true, [], [], [], false, none⟩

/-- `respMessage.setHeader(name, value)`: replaces any existing header of
that name. -/
def ServerResponse.setHeader (rm : ServerResponse) (name value : String) :
    ServerResponse :=
  { rm with headers := rm.headers.filter (fun p => !(p.1 == name)) ++ [(name, value)] }

/-- `respMessage.appendHeader(name, value)`: appends, allowing duplicates
(used for `Set-Cookie`, `src/server.js:89`). -/
def ServerResponse.appendHeader (rm : ServerResponse) (name value : String) :
    ServerResponse :=
  { rm with headers := rm.headers ++ [(name, value)] }

/-- `respMessage.writeHead(status[, statusText])`: records the status and
marks headers as sent.  The optional status text does not alter the recorded
state beyond the status line. -/
def ServerResponse.writeHead (rm : ServerResponse) (status : Nat)
    (_statusText : String) : ServerResponse :=
  { rm with headSeq := rm.headSeq ++ [status], headersSent := true }

/-- `respMessage.write(chunk)`. -/
def ServerResponse.write (rm : ServerResponse) (c : Chunk) : ServerResponse :=
  { rm with writes := rm.writes ++ [c] }

/-- `respMessage.end()`: the transport stops being writable. -/
def ServerResponse.endMsg (rm : ServerResponse) : ServerResponse :=
  { rm with ended := true, writable := false }

/-- `respMessage.destroy(err)` (`src/server.js:139`): the transport is torn
down with the error; no further writes are possible. -/
def ServerResponse.destroy (rm : ServerResponse) (e : Err) : ServerResponse :=
  { rm with destroyedWith := some e, writable := false }

/-- The cancellation state `_send` observes through `context.signal` (the
request's *internal* controller, `src/server.js:235`), sampled at the code's
check points: on entry (`src/server.js:55`), after headers are written
(`src/server.js:93`), and before each read of the streaming loop —
`abortDuring = some k` means the token becomes aborted after `k` chunks have
been read and written, `none` means it never aborts during the loop. -/
structure SendCtx where
  abortedAtEntry : Bool
  abortedAfterHead : Bool
  abortDuring : Option Nat
  reason : Err
  tokenId : Nat

/-- Why the source body stream was cancelled: `body.cancel('Done')` on
natural completion (`src/server.js:129`) or `body.cancel(err)` from the
catch of the streaming loop (`src/server.js:138`–`140`). -/
inductive CancelReason : Type where
  | doneMsg
  | abortErr (e : Err)

/-- The result of a send: the final transport state, whether the reader's
lock was released, how the source stream was cancelled (if it was), and the
error the send rejected with (if it threw — the body computation is the only
throwing step). -/
structure SendOutcome : Type where
  rm : ServerResponse
  readerReleased : Bool
  cancelReason : Option CancelReason
  thrown : Option Err

/-- The `TypeError` a pending `reader.read()` rejects with when
`releaseLock()` is called while it is in flight; `reader.closed` rejects
with the same release error.  The platform's message text is abbreviated to
one fixed value. -/
def releaseLockError : Err :=
  .typeError "reader lock released"

/-- The streaming loop of `_send` (`src/server.js:105`–`141`): while the
signal is not aborted, read a chunk and write it; on a `done` read release
the reader, end the transport and cancel the source with `'Done'`.  When the
signal aborts after `abortAt` chunks (while the next read is pending), the
`abort` listener (`src/server.js:120`) runs `cancel(reason)`: the body is
locked, so it subscribes `reader.closed.then(() => body.cancel(reason))`
and calls `reader.releaseLock()` (`src/server.js:107`–`117`) — but
`reader.closed` *rejects* once the lock is released before the stream
closes, so `body.cancel(reason)` never runs.  The pending read instead
rejects with the release `TypeError`; the catch (`src/server.js:138`–`140`)
destroys the transport with it and, the body now being unlocked, cancels
the source with that same `TypeError` — not the abort reason.  The `reason`
parameter is the value the listener captures; it never reaches a cancel. -/
def streamLoop (reason : Err) (abortAt : Option Nat) (chunks : List Chunk)
    (rm : ServerResponse) : SendOutcome :=
  if abortAt = some 0 then
    ⟨rm.destroy releaseLockError, true, some (.abortErr releaseLockError), none⟩
  else
    match chunks with
    | [] => ⟨rm.endMsg, true, some .doneMsg, none⟩
    | c :: rest =>
        streamLoop reason (abortAt.map (fun n => n - 1)) rest (rm.write c)

/-- The aborted-signal branch of `_send` (`src/server.js:55`–`67`, repeated
at `src/server.js:93`–`104`): when headers are not yet sent, set the JSON
content type and write head 408; when the transport is writable, write the
serialized `HTTPError` built from the abort reason; then end. -/
def sendAborted (reason : Err) (rm : ServerResponse) : ServerResponse :=
  let rm1 :=
    if rm.headersSent then rm
    else (rm.setHeader "Content-Type" "application/json").writeHead 408 ""
  let rm2 :=
    if rm1.writable then rm1.write (.errJSON reason.message 408) else rm1
  rm2.endMsg

/-- The header-writing step of `_send` (`src/server.js:82`–`91`): when
headers are not yet sent, copy every response header except `set-cookie`,
append each `Set-Cookie` value, and write the head with status
`resp.status === 0 ? 500 : resp.status` and the response's status text. -/
def writeRespHead (resp : Resp) (rm : ServerResponse) : ServerResponse :=
  if rm.headersSent then rm
  else
    let rm1 := resp.headers.foldl
      (fun m kv => if kv.1 == "set-cookie" then m else m.setHeader kv.1 kv.2) rm
    let rm2 := (getSetCookie resp.headers).foldl
      (fun m v => m.appendHeader "Set-Cookie" v) rm1
    rm2.writeHead (if resp.status = 0 then 500 else resp.status) resp.statusText

/-- The `Response` branch of `_send` (`src/server.js:68`–`144`): await the
(possibly transformed) body — a throw there (null body with a kept
transform) rejects the send before any header is written; otherwise write
the head, re-check the signal, then stream a readable body while the
transport is writable (a fresh stream is unlocked at `src/server.js:105`),
otherwise just end. -/
def sendResponse (resp : Resp) (rm : ServerResponse) (posts : List PPResult)
    (ctx : SendCtx) : SendOutcome :=
  match respBody resp posts ctx.tokenId with
  | .error e => ⟨rm, false, none, some e⟩
  | .ok body =>
    let rm1 := writeRespHead resp rm
    if ctx.abortedAfterHead then ⟨sendAborted ctx.reason rm1, false, none, none⟩
    else
      match body with
      | .stream chunks =>
          if rm1.writable then streamLoop ctx.reason ctx.abortDuring chunks rm1
          else ⟨rm1.endMsg, false, none, none⟩
      | _ => ⟨rm1.endMsg, false, none, none⟩

/-- A plain response-like object as destructured by `_send`
(`src/server.js:147`): each field optional, with the source's defaults
(`headers = {}`, `body = null`, `status = 200`, `statusText` undefined)
applied by `normalizeObj`.  An entry-array and a record both normalize to
the same association list. -/
structure PlainObj where
  headers : Option (List (String × String))
  body : Option Body
  status : Option Nat
  statusText : Option String

/-- The normalization `_send` applies to a plain object
(`src/server.js:146`–`153`): build a standard `Response` from the object's
fields with the destructuring defaults. -/
def normalizeObj (o : PlainObj) : Resp :=
  mkResponse (o.body.getD Body.null) (o.status.getD 200) (o.statusText.getD "")
    (o.headers.getD [])

/-- Modelled from the spec: `HTTPError.js` is not under `src/`.  §6 describes
the error-to-response collaborator as converting a structured error
(message, HTTP status, optional cause) into a response-like value with a
JSON body describing the error.  This is the response-like shape of the
`new HTTPError('Invalid response.')` fallback of `src/server.js:155`. -/
def invalidResponseObj : PlainObj :=
  ⟨some [("content-type", "application/json")],
    some (Body.stream [Chunk.errJSON "Invalid response." 500]), some 500, none⟩

/-- The value passed to `_send`: a `Response`, some other object (the plain
object branch, `src/server.js:146`), or a non-object. -/
inductive SendValue : Type where
  | response (r : Resp)
  | obj (o : PlainObj)
  | nonObject

/-- `_send` (`src/server.js:54`–`157`).  The source recurses for the plain
object and non-object branches; since the context and transport are
unchanged at the recursive entry and its abort check repeats the same
sampled value, the model composes the normalization with the `Response`
branch directly. -/
def _send (v : SendValue) (rm : ServerResponse) (posts : List PPResult)
    (ctx : SendCtx) : SendOutcome :=
  if ctx.abortedAtEntry then ⟨sendAborted ctx.reason rm, false, none, none⟩
  else
    match v with
    | .response resp => sendResponse resp rm posts ctx
    | .obj o => sendResponse (normalizeObj o) rm posts ctx
    | .nonObject => sendResponse (normalizeObj invalidResponseObj) rm posts ctx

/-- A `URLPattern` as the pipeline uses it: its `test` against a full
request URL (`src/server.js:201`). -/
structure RoutePattern where
  test : String → Bool

/-- What the handler's settled result is classified as
(`src/server.js:270`–`280`): a `Response`, a `URL` (redirect target), an
`Error` (thrown or returned), a plain object, or any other value. -/
inductive HandlerResult : Type where
  | response (r : Resp)
  | url (u : String)
  | error (e : Err)
  | plainObj (o : PlainObj)
  | otherVal

/-- The loaded route target (`src/server.js:258`–`260`): the dynamic import
rejected (caught as an `Error` value), the module lacks a callable default
export, or it has one whose invocation settles to a `HandlerResult`
(`Promise.try(...).catch(err => err)` turns a throw into an `Error` value,
`src/server.js:270`). -/
inductive ModuleLoad : Type where
  | loadError (e : Err)
  | noDefault
  | handler (result : HandlerResult)

/-- A route target: its module specifier (used in error messages) and what
loading it yields. -/
structure Target where
  specifier : String
  load : ModuleLoad

/-- One entry of the route table `ROUTES` (`src/server.js:190`), in
registration order. -/
structure Route where
  pattern : RoutePattern
  target : Target

/-- `ROUTES.keys().find(pattern => pattern.test(request.url))` followed by
`ROUTES.get(pattern)` (`src/server.js:201`, `src/server.js:257`): the first
registered entry whose pattern tests true against the request URL. -/
def findRoute (routes : List Route) (url : String) : Option Route :=
  routes.find? (fun rt => rt.pattern.test url)

/-- One preprocessor's settled result from the `Promise.allSettled` fan-out
(`src/server.js:244`). -/
inductive HookResult : Type where
  | fulfilled
  | rejected (reason : Err)

/-- `results.filter(r => r.status === 'rejected').map(r => r.reason)`
(`src/server.js:245`): the rejection reasons, preserving fan-out order. -/
def hookErrs (results : List HookResult) : List Err :=
  results.filterMap fun r =>
    match r with
    | .rejected e => some e
    | .fulfilled => none

/-- Modelled from the spec: `HTTPError.js` is not under `src/`.  §6 and §7
describe `HTTPError` as a structured error carrying a message, an HTTP
status and an optional cause; construction yields that structured error
value (the spec does not distinguish call from `new`-construction). -/
def HTTPError (message : String) (status : Nat) (cause : Option String) : Err :=
  .httpError message status cause

/-- A call to one of the context's settlement callbacks
(`src/server.js:215`–`227`): `resolve(result)` or `reject(reason)`. -/
inductive SettleCall : Type where
  | resolveCall (r : Resp)
  | rejectCall (e : Err)

/-- The classification of the handler's settled value
(`src/server.js:272`–`280`): a `Response` resolves, a `URL` resolves as a
redirect, an `Error` rejects, and anything else — a plain object included —
rejects with the `TypeError` of `src/server.js:279`. -/
def classifyHandlerResult (moduleSpecifier : String) :
    HandlerResult → SettleCall
  | .response r => .resolveCall r
  | .url u => .resolveCall (responseRedirect u)
  | .error e => .rejectCall e
  | .plainObj _ =>
      .rejectCall (.typeError (moduleSpecifier ++ " did not return a response."))
  | .otherVal =>
      .rejectCall (.typeError (moduleSpecifier ++ " did not return a response."))

/-- The inputs the dispatch chain of `serve` (`src/server.js:240`–`297`)
branches on: the composite signal (external signal any internal controller,
`src/server.js:194`), the preprocessor results, the internal controller's
state, the route table and request URL, and the static-file collaborators
(`existsSync(fileURL)`, `resolveStaticPath`, `respondWithFile`). -/
structure DispatchInput where
  signalAborted : Bool
  signalReason : Err
  preResults : List HookResult
  ctrlAborted : Bool
  ctrlReason : Err
  routes : List Route
  requestUrl : String
  staticExists : Bool
  staticResolved : Option String
  fileResp : Resp

/-- The static-file branches of `serve` (`src/server.js:282`–`294`), reached
when no route pattern matched: when the file URL exists and resolves to a
concrete path, resolve with the file response; otherwise reject with the
404 `HTTPError` naming the request URL. -/
def staticLookup (inp : DispatchInput) : Option SettleCall :=
  if inp.staticExists then
    match inp.staticResolved with
    | some _ => some (.resolveCall inp.fileResp)
    | none =>
        some (.rejectCall
          (HTTPError ("<" ++ inp.requestUrl ++ "> not found.") 404 none))
  else
    some (.rejectCall
      (HTTPError ("<" ++ inp.requestUrl ++ "> not found.") 404 none))

/-- The dispatch chain of `serve` (`src/server.js:247`–`294`): reject with
the composite signal's reason if it aborted; else with the single hook error
when exactly one preprocessor failed, or the `AggregateError` over all of
them when more failed; else with the internal controller's reason if it
aborted; else, when not already settled, take the matched route (load error
→ reject it; no callable default → reject the 500 `HTTPError` of
`src/server.js:265`; otherwise classify the handler's result), falling
through to the static lookup when no pattern matched.  `none` means the
chain issues no settlement call of its own. -/
def dispatch (settled : Bool) (inp : DispatchInput) : Option SettleCall :=
  if inp.signalAborted then some (.rejectCall inp.signalReason)
  else if (hookErrs inp.preResults).length = 1 then
    some (.rejectCall ((hookErrs inp.preResults).headD (.errorMsg "undefined")))
  else if (hookErrs inp.preResults).length ≠ 0 then
    some (.rejectCall (.aggregate (hookErrs inp.preResults)))
  else if inp.ctrlAborted then some (.rejectCall inp.ctrlReason)
  else if !settled then
    match findRoute inp.routes inp.requestUrl with
    | some rt =>
        match rt.target.load with
        | .loadError e => some (.rejectCall e)
        | .noDefault =>
            some (.rejectCall
              (HTTPError "There was an error handling the request." 500
                (some (rt.target.specifier ++ " is missing a default export."))))
        | .handler res => some (classifyHandlerResult rt.target.specifier res)
    | none => staticLookup inp
  else none

/-- The settlement guard state (`src/server.js:204`, `215`–`227`): the
`settled` flag and the value the underlying promise was settled with (if
any). -/
structure SettleState where
  settled : Bool
  outcome : Option SettleCall

/-- The state before any settlement call: `let settled = false`
(`src/server.js:204`). -/
def initSettleState : SettleState :=
  ⟨false, none⟩

/-- One call to `resolve` or `reject` (`src/server.js:215`–`227`): when not
yet settled, forward the value to the underlying resolver and set the flag;
otherwise do nothing. -/
def applyCall (st : SettleState) (c : SettleCall) : SettleState :=
  if st.settled then st else ⟨true, some c⟩

/-- The pipeline's settled outcome for a request whose preprocessors issued
no settlement call of their own: the dispatch chain's single call, pushed
through the settlement guard from its initial state. -/
def pipelineOutcome (inp : DispatchInput) : Option SettleCall :=
  (dispatch false inp).bind (fun c => (applyCall initSettleState c).outcome)

/-- Modelled from the spec: `HTTPError.js` is not under `src/`.  §6's
error-to-response collaborator: the `.response` of an `HTTPError` is a
response-like value with the error's status, a JSON content type, and a
body describing the error. -/
def httpErrorResponse (m : String) (s : Nat) : Resp :=
  ⟨s, "", [("content-type", "application/json")],
    Body.stream [Chunk.errJSON m s]⟩

/-- The rejection handler of `serve` (`src/server.js:301`–`311`): an
`HTTPError` is sent as its own mapped response; any other rejection value is
wrapped as `new HTTPError('An unknown error occured', { status: 500 })` and
that response is sent. -/
def mapRejection : Err → Resp
  | .httpError m s _ => httpErrorResponse m s
  | _ => httpErrorResponse "An unknown error occured" 500

/-- The final-send step of `serve` (`src/server.js:299`–`311`): a resolved
outcome is sent as-is; if that send throws (e.g. the body chain threw on a
null body), the catch receives the error and sends its mapped response; a
rejected outcome is sent through the rejection mapping directly (the logger
side effect carries no state). -/
def settleSend (call : SettleCall) (rm : ServerResponse) (posts : List PPResult)
    (ctx : SendCtx) : SendOutcome :=
  match call with
  | .resolveCall r =>
      match _send (.response r) rm posts ctx with
      | ⟨rm1, rel, cr, some e⟩ => _send (.response (mapRejection e)) rm1 posts ctx
      | out => out
  | .rejectCall e => _send (.response (mapRejection e)) rm posts ctx

/-- A plain 200 response used as a concrete input below. -/
def okResp : Resp :=
  ⟨200, "", [], Body.null⟩

/-- A baseline dispatch input: nothing aborted, no hooks, no routes, no
static file. -/
def baseInput : DispatchInput :=
  ⟨false, Err.errorMsg "", [], false, Err.errorMsg "", [],
    "http://localhost:8080/", false, none, okResp⟩

/-- The plain object `\x7b status: 201, body: "ok" \x7d` of the claim. -/
def plainOkObj : PlainObj :=
  ⟨none, some (.str "ok"), some 201, none⟩

/-- Concrete input: a single route whose pattern matches everything and
whose handler settles to the plain object `plainOkObj`. -/
def c1Input : DispatchInput :=
  { baseInput with
    routes := [⟨⟨fun _ => true⟩, ⟨"mod", .handler (.plainObj plainOkObj)⟩⟩] }

/-- Concrete input: exactly one preprocessor failed. -/
def inpOneFail : DispatchInput :=
  { baseInput with preResults := [.fulfilled, .rejected (.errorMsg "hook failed")] }

/-- Concrete input: two preprocessors failed, in fan-out order `a` then `b`. -/
def inpTwoFail : DispatchInput :=
  { baseInput with
    preResults := [.rejected (.errorMsg "a"), .fulfilled, .rejected (.errorMsg "b")] }

/-- Concrete input: no route matches, but a static file exists and
resolves. -/
def inpNoRoute : DispatchInput :=
  { baseInput with
    routes := [⟨⟨fun _ => false⟩, ⟨"m", .noDefault⟩⟩],
    staticExists := true, staticResolved := some "/srv/index.html" }

/-- Concrete input: a route matches but its module has no callable default
export, while a static file would exist for the path. -/
def inp6 : DispatchInput :=
  { baseInput with
    routes := [⟨⟨fun _ => true⟩, ⟨"./routes/a.js", .noDefault⟩⟩],
    staticExists := true, staticResolved := some "/srv/a.html" }

/-- Concrete input: only the external signal aborted — the composite signal
is aborted with the external reason, while the internal controller (the
`context.signal` that `_send` checks) is not. -/
def inpExternalAbort : DispatchInput :=
  { baseInput with signalAborted := true, signalReason := .strReason "external abort" }

/-- A send context whose internal token never aborts. -/
def quietCtx : SendCtx :=
  ⟨false, false, none, Err.errorMsg "", 0⟩

/-- A send context whose internal token is already aborted at entry, with
the socket-close reason. -/
def abortedCtx : SendCtx :=
  ⟨true, true, some 0, Err.strReason "Socket closed", 0⟩

/-- A first route whose pattern matches everything. -/
def routeA : Route :=
  ⟨⟨fun _ => true⟩, ⟨"./a.js", .noDefault⟩⟩

/-- A second route whose pattern also matches everything. -/
def routeB : Route :=
  ⟨⟨fun _ => true⟩, ⟨"./b.js", .noDefault⟩⟩

/-- A concrete non-immutable response with a one-chunk stream body. -/
def wResp : Resp :=
  ⟨200, "", [], Body.stream [Chunk.bytes [7]]⟩

/-- A concrete redirect-class response with a `location` header. -/
def redirResp : Resp :=
  ⟨302, "", [("location", "http://localhost:8080/next")],
    Body.stream [Chunk.bytes [9]]⟩

/-- A byte-marking transform appending the chunk `[1]`. -/
def markOne : TransformStream :=
  ⟨fun cs => cs ++ [Chunk.bytes [1]]⟩

/-- A byte-marking transform appending the chunk `[2]`. -/
def markTwo : TransformStream :=
  ⟨fun cs => cs ++ [Chunk.bytes [2]]⟩

/-- Concrete postprocessor results: a valid transform, a failure, a
non-stream result, and a second valid transform, in fan-out order. -/
def wPosts : List PPResult :=
  [.fulfilled (.transform markOne), .rejected (.errorMsg "pp failed"),
    .fulfilled .nonStream, .fulfilled (.transform markTwo)]

/-- A response whose status field is `0`, as produced by `Response.error()`. -/
def statusZeroResp : Resp :=
  ⟨0, "", [], Body.null⟩

/-- A concrete three-chunk body stream. -/
def c9Chunks : List Chunk :=
  [Chunk.bytes [1], Chunk.bytes [2], Chunk.bytes [3]]

/-- A 200 response without a body: `resp.body` is `null`. -/
def nullBodyResp : Resp :=
  ⟨200, "", [], Body.null⟩

/-- A single postprocessor result that is a kept (valid) transform. -/
def postsOne : List PPResult :=
  [.fulfilled (.transform markOne)]

/-- A call on an already-settled guard changes nothing. -/
theorem applyCall_settled (st : SettleState) (c : SettleCall)
    (h : st.settled = true) : applyCall st c = st := by
  simp [applyCall, h]

/-- Any sequence of calls on an already-settled guard changes nothing. -/
theorem foldl_applyCall_settled (cs : List SettleCall) :
    ∀ st : SettleState, st.settled = true → cs.foldl applyCall st = st := by
  induction cs with
  | nil => intro st h; rfl
  | cons c rest ih =>
      intro st h
      show rest.foldl applyCall (applyCall st c) = st
      rw [applyCall_settled st c h]
      exact ih st h

/-- C2: settlement is exactly-once — for every sequence of calls to the
context's `resolve`/`reject` callbacks, the outcome the underlying promise
receives equals the argument of whichever callback was called first, and any
call on an already-settled state is a no-op. -/
theorem settlement_exactly_once (cs : List SettleCall) :
    (cs.foldl applyCall initSettleState).outcome = cs.head?
    ∧ ∀ (st : SettleState) (c : SettleCall), st.settled = true →
        applyCall st c = st := by
  constructor
  · cases cs with
    | nil => rfl
    | cons c rest =>
        show (rest.foldl applyCall (applyCall initSettleState c)).outcome = some c
        have h : applyCall initSettleState c = ⟨true, some c⟩ := rfl
        rw [h, foldl_applyCall_settled rest ⟨true, some c⟩ rfl]
  · exact fun st c h => applyCall_settled st c h

/-- Witness for C2: resolve first, then reject — the outcome stays the
resolve argument, and the late reject is a no-op on the settled state. -/
theorem settlement_exactly_once_witness :
    (([SettleCall.resolveCall okResp,
        SettleCall.rejectCall (Err.errorMsg "late")].foldl applyCall
        initSettleState).outcome = some (SettleCall.resolveCall okResp))
    ∧ applyCall ⟨true, some (SettleCall.resolveCall okResp)⟩
        (SettleCall.rejectCall (Err.errorMsg "late"))
        = ⟨true, some (SettleCall.resolveCall okResp)⟩ :=
  ⟨(settlement_exactly_once _).1,
    (settlement_exactly_once []).2 _ _ rfl⟩

/-- C3: with the cancellation token not aborted and at least one
preprocessor failure, the pipeline rejects with that single error when
exactly one failed, and with an `AggregateError` exposing all failures in
fan-out order when more than one failed. -/
theorem preprocessor_failures_reject (inp : DispatchInput) (e : Err)
    (rest : List Err)
    (hsig : inp.signalAborted = false)
    (herrs : hookErrs inp.preResults = e :: rest) :
    (rest = [] → pipelineOutcome inp = some (.rejectCall e))
    ∧ (rest ≠ [] →
        pipelineOutcome inp = some (.rejectCall (.aggregate (e :: rest)))) := by
  constructor
  · intro hr
    subst hr
    simp [pipelineOutcome, dispatch, hsig, herrs, applyCall, initSettleState]
  · intro hr
    cases rest with
    | nil => exact absurd rfl hr
    | cons r rs =>
        simp [pipelineOutcome, dispatch, hsig, herrs, applyCall, initSettleState]

/-- Witness for C3: one failure rejects with it; two failures reject with
the aggregate over both, in fan-out order. -/
theorem preprocessor_failures_reject_witness :
    pipelineOutcome inpOneFail
        = some (.rejectCall (.errorMsg "hook failed"))
    ∧ pipelineOutcome inpTwoFail
        = some (.rejectCall (.aggregate [.errorMsg "a", .errorMsg "b"])) :=
  ⟨(preprocessor_failures_reject inpOneFail (.errorMsg "hook failed") []
      rfl rfl).1 rfl,
    (preprocessor_failures_reject inpTwoFail (.errorMsg "a") [.errorMsg "b"]
      rfl rfl).2 (by simp)⟩

/-- C7: a response classified as immutable — status strictly between 299 and
309 with a `Location` header — keeps its original body untouched for every
postprocessor result list and every token: the chain never even runs, so no
postprocessor is applied and no chain error can occur. -/
theorem immutable_response_bypasses_postprocessors (resp : Resp)
    (posts : List PPResult) (tok : Nat)
    (h1 : 299 < resp.status) (h2 : resp.status < 309)
    (h3 : headersHas resp.headers "Location" = true) :
    respBody resp posts tok = Except.ok resp.body := by
  have h : _isImmutableResponse resp = true := by
    simp [_isImmutableResponse, h1, h2, h3]
  simp [respBody, h]

/-- Witness for C7: a 302 response with a `location` header and a marked
body keeps that body untouched by the transform-bearing `wPosts`. -/
theorem immutable_response_bypasses_postprocessors_witness :
    respBody redirResp wPosts 0 = Except.ok redirResp.body :=
  immutable_response_bypasses_postprocessors redirResp wPosts 0
    (by decide) (by decide) rfl

/-- The reduce of `_send`, projected to the chained body, equals the
specification-side chaining of the kept transforms — errors included: both
throw at the same (first) pipe whose receiver is not a stream. -/
theorem chain_fold_fst (tok : Nat) (posts : List PPResult) :
    ∀ (b : Body) (sigs : List Nat),
      (((posts.filter (fun r => _isTransformStream r.value)).map
          (fun r => r.value)).foldlM (pipeValue tok) (b, sigs)).map Prod.fst
        = specChainInOrder tok b (specKeptTransforms posts) := by
  induction posts with
  | nil => intro b sigs; rfl
  | cons r rest ih =>
      intro b sigs
      cases r with
      | fulfilled v =>
          cases v with
          | transform t =>
              cases b with
              | stream cs => exact ih (Body.stream (t.transform cs)) (sigs ++ [tok])
              | null => rfl
              | str s => rfl
          | nonStream => exact ih b sigs
      | rejected e => exact ih b sigs

/-- On a successful chain, the recorded abort sources are exactly one token
per kept transform, in order. -/
theorem chain_fold_sigs (tok : Nat) (posts : List PPResult) :
    ∀ (b b' : Body) (sigs sigs' : List Nat),
      ((posts.filter (fun r => _isTransformStream r.value)).map
          (fun r => r.value)).foldlM (pipeValue tok) (b, sigs)
        = Except.ok (b', sigs') →
      sigs' = sigs ++ List.replicate (specKeptTransforms posts).length tok := by
  induction posts with
  | nil =>
      intro b b' sigs sigs' h
      injection h with hpair
      injection hpair with hb hs
      simp [← hs, specKeptTransforms]
  | cons r rest ih =>
      intro b b' sigs sigs' h
      cases r with
      | fulfilled v =>
          cases v with
          | transform t =>
              cases b with
              | stream cs =>
                  have hr := ih (Body.stream (t.transform cs)) b' (sigs ++ [tok])
                    sigs' h
                  rw [hr]
                  simp [specKeptTransforms, List.replicate_succ,
                    List.append_assoc]
              | null => exact Except.noConfusion h
              | str s => exact Except.noConfusion h
          | nonStream => exact ih b b' sigs sigs' h
      | rejected e => exact ih b b' sigs sigs' h

/-- Chaining onto a stream body always succeeds, applying the transforms in
order. -/
theorem specChain_stream (tok : Nat) (ts : List TransformStream) :
    ∀ cs, specChainInOrder tok (Body.stream cs) ts
      = Except.ok (Body.stream (ts.foldl (fun c t => t.transform c) cs)) := by
  induction ts with
  | nil => intro cs; rfl
  | cons t rest ih => intro cs; exact ih (t.transform cs)

/-- C8 counterexample: for a body-less response (`resp.body` is `null`) with
a kept transform, the send does not chain the transforms onto the body — the
reduce of `src/server.js:79` throws a `TypeError` (`null.pipeThrough`), the
body computation rejects, and the send is blocked before any header is
written, contradicting the claimed chaining for every non-immutable
response. -/
theorem null_body_chain_counterexample :
    respBody nullBodyResp postsOne 0 = Except.error pipeNullError
    ∧ (_send (.response nullBodyResp) initialServerResponse postsOne
        quietCtx).thrown = some pipeNullError
    ∧ (_send (.response nullBodyResp) initialServerResponse postsOne
        quietCtx).rm.headSeq = [] := by
  exact ⟨rfl, rfl, rfl⟩

/-- C8 (amended): for every non-immutable response, the body computation of
the send keeps exactly the postprocessor results that are valid transform
streams — discarding non-stream results and postprocessor failures without
blocking the send — and chains them in registration (fan-out) order onto the
original body, every pipe receiving the cancellation token as its abort
source.  The chain succeeds whenever the original body is a stream, yielding
the transforms applied in order; on a null body with a kept transform it
instead throws the `TypeError` that rejects the send. -/
theorem postprocessor_chain_in_order (resp : Resp) (posts : List PPResult)
    (tok : Nat) (h : _isImmutableResponse resp = false) :
    (respBody resp posts tok
        = specChainInOrder tok resp.body (specKeptTransforms posts))
    ∧ (∀ (b : Body) (sigs : List Nat),
        chainTransforms tok resp.body posts = Except.ok (b, sigs) →
        sigs = List.replicate (specKeptTransforms posts).length tok)
    ∧ (∀ cs, resp.body = Body.stream cs →
        respBody resp posts tok
          = Except.ok (Body.stream ((specKeptTransforms posts).foldl
              (fun c t => t.transform c) cs))) := by
  have hfst : respBody resp posts tok
      = specChainInOrder tok resp.body (specKeptTransforms posts) := by
    simp only [respBody, h, Bool.false_eq_true, if_false, chainTransforms]
    exact chain_fold_fst tok posts resp.body []
  refine ⟨hfst, ?_, ?_⟩
  · intro b sigs hok
    exact chain_fold_sigs tok posts resp.body b [] sigs hok
  · intro cs hcs
    rw [hfst, hcs]
    exact specChain_stream tok (specKeptTransforms posts) cs

/-- Witness for C8: of the four results in `wPosts` only the two
byte-marking transforms are kept; they mark the stream body in registration
order — first `[1]`, then `[2]` — and each pipe records the token `7` as
its abort source. -/
theorem postprocessor_chain_in_order_witness :
    (respBody wResp wPosts 7
        = Except.ok (Body.stream
            [Chunk.bytes [7], Chunk.bytes [1], Chunk.bytes [2]]))
    ∧ ([7, 7] = List.replicate (specKeptTransforms wPosts).length 7) :=
  ⟨((postprocessor_chain_in_order wResp wPosts 7 rfl).2.2
      [Chunk.bytes [7]] rfl).trans rfl,
    (postprocessor_chain_in_order wResp wPosts 7 rfl).2.1
      (Body.stream [Chunk.bytes [7], Chunk.bytes [1], Chunk.bytes [2]])
      [7, 7] rfl⟩

/-- Folding a step that touches only the header list preserves every other
transport field. -/
theorem foldl_fields_preserved {α : Type} (f : ServerResponse → α → ServerResponse)
    (hf : ∀ (rm : ServerResponse) (a : α),
      (f rm a).headersSent = rm.headersSent
      ∧ (f rm a).writable = rm.writable
      ∧ (f rm a).headSeq = rm.headSeq
      ∧ (f rm a).writes = rm.writes
      ∧ (f rm a).ended = rm.ended) :
    ∀ (l : List α) (rm : ServerResponse),
      ((l.foldl f rm).headersSent = rm.headersSent)
      ∧ ((l.foldl f rm).writable = rm.writable)
      ∧ ((l.foldl f rm).headSeq = rm.headSeq)
      ∧ ((l.foldl f rm).writes = rm.writes)
      ∧ ((l.foldl f rm).ended = rm.ended) := by
  intro l
  induction l with
  | nil => intro rm; exact ⟨rfl, rfl, rfl, rfl, rfl⟩
  | cons a t ih =>
      intro rm
      have h1 := hf rm a
      have h2 := ih (f rm a)
      exact ⟨h2.1.trans h1.1, h2.2.1.trans h1.2.1, h2.2.2.1.trans h1.2.2.1,
        h2.2.2.2.1.trans h1.2.2.2.1, h2.2.2.2.2.trans h1.2.2.2.2⟩

/-- The header-writing step appends exactly the wire status
(`status === 0 ? 500 : status`) to the `writeHead` sequence and leaves the
other transport fields alone (headers apart). -/
theorem writeRespHead_fields (resp : Resp) (rm : ServerResponse)
    (h : rm.headersSent = false) :
    ((writeRespHead resp rm).headSeq
        = rm.headSeq ++ [if resp.status = 0 then 500 else resp.status])
    ∧ (writeRespHead resp rm).headersSent = true
    ∧ (writeRespHead resp rm).writable = rm.writable
    ∧ (writeRespHead resp rm).writes = rm.writes
    ∧ (writeRespHead resp rm).ended = rm.ended := by
  have hset : ∀ (m : ServerResponse) (kv : String × String),
      ((if kv.1 == "set-cookie" then m else m.setHeader kv.1 kv.2).headersSent
          = m.headersSent)
      ∧ ((if kv.1 == "set-cookie" then m else m.setHeader kv.1 kv.2).writable
          = m.writable)
      ∧ ((if kv.1 == "set-cookie" then m else m.setHeader kv.1 kv.2).headSeq
          = m.headSeq)
      ∧ ((if kv.1 == "set-cookie" then m else m.setHeader kv.1 kv.2).writes
          = m.writes)
      ∧ ((if kv.1 == "set-cookie" then m else m.setHeader kv.1 kv.2).ended
          = m.ended) := by
    intro m kv
    cases hc : (kv.1 == "set-cookie") <;> simp [hc, ServerResponse.setHeader]
  have happ : ∀ (m : ServerResponse) (v : String),
      (m.appendHeader "Set-Cookie" v).headersSent = m.headersSent
      ∧ (m.appendHeader "Set-Cookie" v).writable = m.writable
      ∧ (m.appendHeader "Set-Cookie" v).headSeq = m.headSeq
      ∧ (m.appendHeader "Set-Cookie" v).writes = m.writes
      ∧ (m.appendHeader "Set-Cookie" v).ended = m.ended := by
    intro m v; simp [ServerResponse.appendHeader]
  have hf1 := foldl_fields_preserved
    (fun m kv => if kv.1 == "set-cookie" then m else m.setHeader kv.1 kv.2)
    hset resp.headers rm
  have hf2 := foldl_fields_preserved
    (fun m v => m.appendHeader "Set-Cookie" v) happ (getSetCookie resp.headers)
    (resp.headers.foldl
      (fun m kv => if kv.1 == "set-cookie" then m else m.setHeader kv.1 kv.2) rm)
  simp only [beq_iff_eq] at hf1 hf2
  unfold writeRespHead
  rw [h]
  refine ⟨?_, ?_, ?_, ?_, ?_⟩
  · simp [ServerResponse.writeHead, hf2.2.2.1, hf1.2.2.1]
  · simp [ServerResponse.writeHead]
  · simp [ServerResponse.writeHead, hf2.2.1, hf1.2.1]
  · simp [ServerResponse.writeHead, hf2.2.2.2.1, hf1.2.2.2.1]
  · simp [ServerResponse.writeHead, hf2.2.2.2.2, hf1.2.2.2.2]

/-- The streaming loop never touches the head: `writeHead` is not called
after streaming begins. -/
theorem streamLoop_preserve (reason : Err) :
    ∀ (chunks : List Chunk) (abortAt : Option Nat) (rm : ServerResponse),
      ((streamLoop reason abortAt chunks rm).rm.headSeq = rm.headSeq)
      ∧ ((streamLoop reason abortAt chunks rm).rm.headersSent = rm.headersSent) := by
  intro chunks
  induction chunks with
  | nil =>
      intro abortAt rm
      unfold streamLoop
      by_cases hab : abortAt = some 0
      · simp [hab, ServerResponse.destroy]
      · simp [hab, ServerResponse.endMsg]
  | cons c rest ih =>
      intro abortAt rm
      unfold streamLoop
      by_cases hab : abortAt = some 0
      · simp [hab, ServerResponse.destroy]
      · simp only [hab, if_false]
        have h := ih (abortAt.map (fun n => n - 1)) (rm.write c)
        simpa [ServerResponse.write] using h

/-- When headers were already written, the aborted-send branch adds no
further `writeHead`. -/
theorem sendAborted_headSeq (reason : Err) (rm : ServerResponse)
    (h : rm.headersSent = true) :
    (sendAborted reason rm).headSeq = rm.headSeq := by
  by_cases hw : rm.writable
  · simp [sendAborted, h, hw, ServerResponse.write, ServerResponse.endMsg]
  · simp [sendAborted, h, hw, ServerResponse.endMsg]

/-- On a fresh transport the aborted-send branch writes head 408 exactly
once and, when writable, the serialized abort error. -/
theorem sendAborted_fresh (reason : Err) (rm : ServerResponse)
    (h1 : rm.headersSent = false) (h2 : rm.headSeq = []) :
    (sendAborted reason rm).headSeq = [408]
    ∧ (rm.writable = true →
        (sendAborted reason rm).writes
          = rm.writes ++ [.errJSON reason.message 408]) := by
  by_cases hw : rm.writable
  · simp [sendAborted, h1, h2, hw, ServerResponse.setHeader,
      ServerResponse.writeHead, ServerResponse.write, ServerResponse.endMsg]
  · constructor
    · simp [sendAborted, h1, h2, hw, ServerResponse.setHeader,
        ServerResponse.writeHead, ServerResponse.endMsg]
    · intro hcontra
      exact absurd hcontra hw

/-- C9: the code evaluated at the failing input — abort after one of three
chunks, while the second read is pending.  The true parts of the claim
hold: no further chunks are written (exactly the first chunk is) and the
reader is released.  But the source stream is cancelled with the
reader-release `TypeError`, not the abort reason, and the transport is
destroyed with that `TypeError`: the listener's `body.cancel(reason)` at
`src/server.js:109`–`110` is skipped because `reader.closed` rejects once
`releaseLock()` runs (`src/server.js:113`), so the only cancellation
happens in the catch of `src/server.js:138`–`140`. -/
theorem abort_stream_divergence :
    ((streamLoop (.strReason "Socket closed") (some 1) c9Chunks
        initialServerResponse).rm.writes = [Chunk.bytes [1]])
    ∧ (streamLoop (.strReason "Socket closed") (some 1) c9Chunks
        initialServerResponse).readerReleased = true
    ∧ (streamLoop (.strReason "Socket closed") (some 1) c9Chunks
        initialServerResponse).cancelReason
        = some (.abortErr releaseLockError)
    ∧ some (CancelReason.abortErr releaseLockError)
        ≠ some (CancelReason.abortErr (.strReason "Socket closed"))
    ∧ (streamLoop (.strReason "Socket closed") (some 1) c9Chunks
        initialServerResponse).rm.destroyedWith = some releaseLockError := by
  refine ⟨rfl, rfl, rfl, ?_, rfl⟩
  intro hcontra
  simp [releaseLockError] at hcontra

/-- For a `Response` sent on a transport whose headers are not yet written,
with the token not aborted at entry and the body computation succeeding,
the `writeHead` sequence gains exactly the wire status, whatever happens
afterwards. -/
theorem send_response_headSeq (resp : Resp) (rm : ServerResponse)
    (posts : List PPResult) (ctx : SendCtx) (b : Body)
    (h1 : ctx.abortedAtEntry = false) (h2 : rm.headersSent = false)
    (hok : respBody resp posts ctx.tokenId = Except.ok b) :
    (_send (.response resp) rm posts ctx).rm.headSeq
      = rm.headSeq ++ [if resp.status = 0 then 500 else resp.status] := by
  have hw := writeRespHead_fields resp rm h2
  have habort : (sendAborted ctx.reason (writeRespHead resp rm)).headSeq
      = (writeRespHead resp rm).headSeq := sendAborted_headSeq _ _ hw.2.1
  simp only [_send, h1, Bool.false_eq_true, if_false]
  dsimp only [sendResponse]
  rw [hok]
  dsimp only
  by_cases ha : ctx.abortedAfterHead = true
  · simp only [ha, if_true]
    exact habort.trans hw.1
  · simp only [ha, if_false]
    cases b with
    | stream chunks =>
        by_cases hwr : (writeRespHead resp rm).writable = true
        · simp only [hwr, if_true]
          exact ((streamLoop_preserve ctx.reason chunks ctx.abortDuring
            (writeRespHead resp rm)).1).trans hw.1
        · simp only [hwr, if_false]
          simpa [ServerResponse.endMsg] using hw.1
    | null => simpa [ServerResponse.endMsg] using hw.1
    | str s => simpa [ServerResponse.endMsg] using hw.1

/-- C10 counterexample: a 200 response without a body, sent with one kept
postprocessor transform, never reaches `writeHead` — the chain throws at
`src/server.js:79` first, so no head carries the response's own status, and
the rejection fallback of `serve` then writes 500 although the status field
is 200, not 0. -/
theorem status_zero_counterexample :
    ((_send (.response nullBodyResp) initialServerResponse postsOne
        quietCtx).rm.headSeq = [])
    ∧ ((settleSend (.resolveCall nullBodyResp) initialServerResponse postsOne
        quietCtx).rm.headSeq = [500]) := by
  exact ⟨rfl, rfl⟩

/-- C10 (amended): for a `Response` outcome sent before headers are written
whose postprocessor chain does not throw, a status field of 0 is written to
the wire as 500 and any other status is written as-is; when the chain throws
(null body with a kept transform), that send writes no head and the
rejection fallback writes 500. -/
theorem status_zero_maps_to_500 (resp : Resp) (rm : ServerResponse)
    (posts : List PPResult) (ctx : SendCtx) (b : Body)
    (h1 : ctx.abortedAtEntry = false) (h2 : rm.headersSent = false)
    (h3 : rm.headSeq = []) (hok : respBody resp posts ctx.tokenId = Except.ok b) :
    (resp.status = 0 →
      (_send (.response resp) rm posts ctx).rm.headSeq = [500])
    ∧ (resp.status ≠ 0 →
      (_send (.response resp) rm posts ctx).rm.headSeq = [resp.status]) := by
  have h := send_response_headSeq resp rm posts ctx b h1 h2 hok
  rw [h3] at h
  constructor
  · intro h0
    rw [h, if_pos h0]
    rfl
  · intro h0
    rw [h, if_neg h0]
    rfl

/-- Witness for C10: `Response.error()`-style status 0 hits the wire as 500;
a normal 200 hits the wire as 200 (no postprocessors, so the chain
trivially succeeds). -/
theorem status_zero_maps_to_500_witness :
    ((_send (.response statusZeroResp) initialServerResponse [] quietCtx).rm.headSeq
        = [500])
    ∧ ((_send (.response okResp) initialServerResponse [] quietCtx).rm.headSeq
        = [200]) :=
  ⟨(status_zero_maps_to_500 statusZeroResp initialServerResponse [] quietCtx
      Body.null rfl rfl rfl rfl).1 rfl,
    (status_zero_maps_to_500 okResp initialServerResponse [] quietCtx
      Body.null rfl rfl rfl rfl).2 (by decide)⟩

/-- C5 (amended): when the request's internal cancellation token is aborted
before any response headers have been written, the send operation writes
exactly one head, with status 408, and — when the transport is writable — a
JSON body describing the abort reason. -/
theorem internal_abort_writes_408 (v : SendValue) (rm : ServerResponse)
    (posts : List PPResult) (ctx : SendCtx)
    (h1 : ctx.abortedAtEntry = true) (h2 : rm.headersSent = false)
    (h3 : rm.headSeq = []) :
    ((_send v rm posts ctx).rm.headSeq = [408])
    ∧ (rm.writable = true →
        (_send v rm posts ctx).rm.writes
          = rm.writes ++ [.errJSON ctx.reason.message 408])
    ∧ (_send v rm posts ctx).rm.headSeq.length ≤ 1 := by
  have h := sendAborted_fresh ctx.reason rm h2 h3
  simp only [_send, h1, if_true]
  exact ⟨h.1, h.2, by rw [h.1]; exact Nat.le_refl 1⟩

/-- Witness for C5's amended theorem: a socket-close abort on a fresh
transport yields a single 408 head and the serialized abort error body. -/
theorem internal_abort_writes_408_witness :
    ((_send (.response okResp) initialServerResponse [] abortedCtx).rm.headSeq
        = [408])
    ∧ ((_send (.response okResp) initialServerResponse [] abortedCtx).rm.writes
        = [Chunk.errJSON "Socket closed" 408]) :=
  ⟨(internal_abort_writes_408 (.response okResp) initialServerResponse []
      abortedCtx rfl rfl rfl).1,
    (internal_abort_writes_408 (.response okResp) initialServerResponse []
      abortedCtx rfl rfl rfl).2.1 rfl⟩

/-- C5 counterexample: the claim also promises a 408-class response when
only the *external* cancellation token aborts, but `_send` checks
`context.signal` — the internal controller only (`src/server.js:235`).  An
external-only abort makes the dispatch chain reject with the external
reason (`src/server.js:247`), which — not being an `HTTPError` — is mapped
to the generic 500 response, so the wire status is 500, not 408-class. -/
theorem external_abort_counterexample :
    pipelineOutcome inpExternalAbort
        = some (.rejectCall (.strReason "external abort"))
    ∧ ((settleSend (.rejectCall (.strReason "external abort"))
        initialServerResponse [] quietCtx).rm.headSeq = [500]) := by
  constructor
  · rfl
  · rfl

/-- The first registered entry whose pattern matches is the one `find?`
returns, whatever later entries would do. -/
theorem find_first_aux (url : String) :
    ∀ (routes : List Route) (i : Nat) (hi : i < routes.length),
      (routes.get ⟨i, hi⟩).pattern.test url = true →
      (∀ j (hj : j < i),
        (routes.get ⟨j, Nat.lt_trans hj hi⟩).pattern.test url = false) →
      findRoute routes url = some (routes.get ⟨i, hi⟩) := by
  intro routes
  induction routes with
  | nil => intro i hi; exact absurd hi (Nat.not_lt_zero i)
  | cons r rs ih =>
      intro i hi hmatch hbefore
      cases i with
      | zero =>
          show List.find? (fun rt => rt.pattern.test url) (r :: rs) = some r
          rw [List.find?_cons_of_pos]
          exact hmatch
      | succ n =>
          have h0 : r.pattern.test url = false := hbefore 0 (Nat.succ_pos n)
          have hrest := ih n (Nat.lt_of_succ_lt_succ hi) hmatch
            (fun j hj => hbefore (j + 1) (Nat.succ_lt_succ hj))
          unfold findRoute at hrest ⊢
          rw [List.find?_cons_of_neg _ (by simp [h0])]
          exact hrest

/-- C4: the route selected is the first registered pattern whose test
matches the full request URL, even when later patterns would also match;
and when no pattern matches, the dispatch chain falls through to the
static-file lookup. -/
theorem first_matching_route_wins :
    (∀ (routes : List Route) (url : String) (i : Nat) (hi : i < routes.length),
        (routes.get ⟨i, hi⟩).pattern.test url = true →
        (∀ j (hj : j < i),
          (routes.get ⟨j, Nat.lt_trans hj hi⟩).pattern.test url = false) →
        findRoute routes url = some (routes.get ⟨i, hi⟩))
    ∧ (∀ inp : DispatchInput,
        inp.signalAborted = false →
        hookErrs inp.preResults = [] →
        inp.ctrlAborted = false →
        findRoute inp.routes inp.requestUrl = none →
        dispatch false inp = staticLookup inp) := by
  constructor
  · exact fun routes url i hi h1 h2 => find_first_aux url routes i hi h1 h2
  · intro inp hs hh hc hf
    simp [dispatch, hs, hh, hc, hf]

/-- Witness for C4: with two always-matching routes the first is selected;
with no matching route the dispatch equals the static lookup. -/
theorem first_matching_route_wins_witness :
    findRoute [routeA, routeB] "http://localhost:8080/x" = some routeA
    ∧ dispatch false inpNoRoute = staticLookup inpNoRoute :=
  ⟨first_matching_route_wins.1 [routeA, routeB] "http://localhost:8080/x" 0
      (by decide) rfl (fun j hj => absurd hj (Nat.not_lt_zero j)),
    first_matching_route_wins.2 inpNoRoute rfl rfl rfl rfl⟩

/-- C6: when a route pattern matched but the loaded target exposes no
callable default export, the pipeline rejects with the 500-class structured
routing error of `src/server.js:265` — even when a static file exists for
the path, the static branches are never reached. -/
theorem invalid_handler_rejects_500 (inp : DispatchInput) (rt : Route)
    (hsig : inp.signalAborted = false)
    (hhooks : hookErrs inp.preResults = [])
    (hctrl : inp.ctrlAborted = false)
    (hroute : findRoute inp.routes inp.requestUrl = some rt)
    (hload : rt.target.load = ModuleLoad.noDefault)
    (hstatic : inp.staticExists = true) :
    pipelineOutcome inp
      = some (.rejectCall (HTTPError "There was an error handling the request."
          500 (some (rt.target.specifier ++ " is missing a default export.")))) := by
  simp [pipelineOutcome, dispatch, hsig, hhooks, hctrl, hroute, hload,
    applyCall, initSettleState, HTTPError]

/-- Witness for C6: a matching route with a module that lacks a default
export rejects with the 500 routing error although a static file exists. -/
theorem invalid_handler_rejects_500_witness :
    pipelineOutcome inp6
      = some (.rejectCall (.httpError "There was an error handling the request."
          500 (some "./routes/a.js is missing a default export."))) :=
  invalid_handler_rejects_500 inp6
    ⟨⟨fun _ => true⟩, ⟨"./routes/a.js", .noDefault⟩⟩ rfl rfl rfl rfl rfl rfl

/-- C1 counterexample: a handler that returns the plain object
`\x7b status: 201, body: "ok" \x7d` does not settle the pipeline with a
normalized 201 response — the classification of `src/server.js:272`–`280`
rejects it with the `TypeError` of `src/server.js:279`. -/
theorem plain_object_handler_rejects_counterexample :
    pipelineOutcome c1Input
      = some (.rejectCall (.typeError "mod did not return a response.")) := by
  rfl

/-- C1 (amended): a route handler returning a plain object
`\x7b status: 201, body: "ok" \x7d` makes the pipeline reject with the
`TypeError` that the module did not return a response; the plain-object
normalization of `src/server.js:146`–`153` applies only to objects passed
to the send operation directly, where such an object is normalized into a
standard response with status 201 and body `"ok"` — written to the wire as
head 201 and the bytes of `"ok"`. -/
theorem plain_object_send_normalization (o : PlainObj) (spec : String)
    (ctx : SendCtx)
    (hstatus : o.status = some 201) (hbody : o.body = some (.str "ok"))
    (hheaders : o.headers = none)
    (h1 : ctx.abortedAtEntry = false) (h2 : ctx.abortedAfterHead = false)
    (h3 : ctx.abortDuring = none) :
    (classifyHandlerResult spec (.plainObj o)
        = .rejectCall (.typeError (spec ++ " did not return a response.")))
    ∧ (normalizeObj o).status = 201
    ∧ (normalizeObj o).body = Body.stream [Chunk.bytes (strBytes "ok")]
    ∧ ((_send (.obj o) initialServerResponse [] ctx).rm.headSeq = [201])
    ∧ ((_send (.obj o) initialServerResponse [] ctx).rm.writes
        = [Chunk.bytes (strBytes "ok")]) := by
  obtain ⟨oh, ob, os, ost⟩ := o
  simp only at hstatus hbody hheaders
  subst hstatus
  subst hbody
  subst hheaders
  have hok : respBody
      (normalizeObj (⟨none, some (.str "ok"), some 201, ost⟩ : PlainObj)) []
      ctx.tokenId = Except.ok (Body.stream [Chunk.bytes (strBytes "ok")]) := rfl
  have hsend : _send (.obj ⟨none, some (.str "ok"), some 201, ost⟩)
      initialServerResponse [] ctx
      = ⟨⟨true, false, [], [201], [Chunk.bytes (strBytes "ok")], true, none⟩,
          true, some .doneMsg, none⟩ := by
    simp only [_send, h1, Bool.false_eq_true, if_false]
    dsimp only [sendResponse]
    rw [hok]
    dsimp only
    simp [h2, h3, writeRespHead, getSetCookie, normalizeObj, mkResponse,
      normHeaderList, lowerStr, ServerResponse.writeHead,
      ServerResponse.setHeader, streamLoop, ServerResponse.write,
      ServerResponse.endMsg, initialServerResponse]
  refine ⟨rfl, rfl, rfl, ?_, ?_⟩
  · rw [hsend]
  · rw [hsend]

/-- Witness for C1's amended theorem: the concrete plain object is sent as
a 201 with body bytes of `"ok"`. -/
theorem plain_object_send_normalization_witness :
    ((_send (.obj plainOkObj) initialServerResponse [] quietCtx).rm.headSeq
        = [201])
    ∧ ((_send (.obj plainOkObj) initialServerResponse [] quietCtx).rm.writes
        = [Chunk.bytes (strBytes "ok")]) :=
  ⟨(plain_object_send_normalization plainOkObj "mod" quietCtx
      rfl rfl rfl rfl rfl rfl).2.2.2.1,
    (plain_object_send_normalization plainOkObj "mod" quietCtx
      rfl rfl rfl rfl rfl rfl).2.2.2.2⟩
